import Mathlib

/-!
# Verification of the `comtrade` UN Comtrade API client

Shallow embedding of `src/comtrade/core.py` and `src/comtrade/util.py`.

Modelling conventions:
* Python `None` / optional values become `Option`.
* A raised exception becomes an explicit error constructor; functions that
  may raise return `Except` (or an outcome inductive for `__init__`).
* The HTTP transport (`requests`) is a collaborator: a network call is an
  application of an oracle function `String → ... → Response`; pipelines
  that may call the network also return the number of calls they made.
* The tabular library (`pandas`) is a collaborator: `pd.DataFrame`,
  `to_csv` / `read_csv` are modelled by small executable functions over a
  concrete `DF` structure (column names, row index, row values, all
  strings), with the serialisation round trip proved, not assumed.
* The filesystem (the reference-table cache directory) is an association
  list from file name to stored CSV content, threaded as explicit state.
-/

set_option maxRecDepth 8000

namespace Comtrade

/-- Configuration constant `DEFAULT_API_URL` from `util.py`. -/
def DEFAULT_API_URL : String := "http://comtrade.un.org/api/"

/-! ## Client construction (`Comtrade.__init__`, core.py lines 26-52) -/

/-- The transport session created by `requests.Session()` +
`sess.mount(self.url, HTTPAdapter(max_retries=max_retries))`: we record the
URL it is bound to and the retry count it is configured with. -/
structure SessState where
  url : String
  maxRetries : Nat
deriving DecidableEq, Repr

/-- The `Comtrade` object's attributes after `__init__` finishes without an
exception.  `sess` is `none` when the constructor returned before reaching
`self.sess = requests.Session()` (the early `return` on line 39). -/
structure Client where
  url : String
  token : Option String
  sess : Option SessState
deriving DecidableEq, Repr

/-- Outcome of running `Comtrade.__init__`: normal completion together with
the list of `warnings.warn` messages emitted, or an uncaught exception. -/
inductive InitResult where
  | ok (c : Client) (warns : List String)
  | typeError (msg : String)
  | valueError (msg : String)
deriving DecidableEq, Repr

/-- Rendering of the Python f-string interpolation `{token}` where `token`
is an `Optional[str]`. -/
def showOptToken : Option String → String
  | none => "None"
  | some t => t

/-- The length-validation tail of `__init__` (core.py lines 41-52), run
after token resolution.  `token` is the constructor argument, `selfToken`
the value of `self.token` at line 41.  Faithful to the source: line 44
subscripts the constructor argument `token[:key_len]`, not `self.token`,
so when the token was resolved from the environment or the token file
(`token` is `None`) the truncation branch raises `TypeError`; and line 48
interpolates the constructor argument into the error message. -/
def initValidate (url : String) (token selfToken : Option String)
    (maxRetries : Nat) : InitResult :=
  match selfToken with
  | none => .ok ⟨url, none, some ⟨url, maxRetries⟩⟩ []
  | some t =>
    if t.length > 152 then
      match token with
      | none => .typeError "'NoneType' object is not subscriptable"
      | some ct =>
        .ok ⟨url, some (ct.take 152), some ⟨url, maxRetries⟩⟩
          ["API token too long, using first 152 characters"]
    else if t.length < 152 then
      .valueError
        (s!"API token {showOptToken token} too short. Should be 152 chars")
    else
      .ok ⟨url, some t, some ⟨url, maxRetries⟩⟩ []

/-- Embedding of `Comtrade.__init__` (core.py lines 26-52).  `env` models
`os.environ[KEY_ENV_NAME]` when the variable is set, `file` the contents of
the token file `KEY_FILE_NAME` when that file exists.  Faithful to the
source: `self.token` starts as `None` (line 28) and a constructor-supplied
`token` is never assigned to it (there is no `else` branch on line 30), so
after the resolution block `self.token` is non-`None` only on the
environment-variable and token-file paths; and on the no-token path the
constructor warns and returns before creating the session (line 39). -/
def comtradeInit (url : String) (token : Option String)
    (env : Option String) (file : Option String) (maxRetries : Nat) :
    InitResult :=
  match token with
  | some _ => initValidate url token none maxRetries
  | none =>
    match env with
    | some e => initValidate url token (some e) maxRetries
    | none =>
      match file with
      | some contents => initValidate url token (some contents.trim) maxRetries
      | none =>
        .ok ⟨url, none, none⟩
          ["Comtrade token not detected, usage may be limited."]

/-- A 153-character token (one over the valid length). -/
def tok153 : String := String.mk (List.replicate 153 'a')

/-- A 152-character token (the valid length). -/
def tok152 : String := String.mk (List.replicate 152 'b')

example : tok153.length = 153 := by decide
example : tok152.length = 152 := by decide

/-! ## Tabular data (the pandas collaborator)

`pd.DataFrame(records)`, `df.to_csv(fn)` and `pd.read_csv(fn, index_col=0)`
are modelled over a concrete dataframe type: an ordered list of column
names, a row index, and the row values, everything as strings. -/

/-- A JSON record from a `dataset` or `results` array: field name/value
pairs (scalar values rendered as strings). -/
abbrev Row := List (String × String)

/-- A dataframe: column names, row index and row values (as strings). -/
structure DF where
  colNames : List String
  index : List String
  rows : List (List String)
deriving DecidableEq, Repr

/-- Model of `pd.DataFrame(records)` on a list of JSON records: columns are the
field names of the first record, the index is the default `0..n-1` range,
and each row holds the record's values. -/
def mkDF (records : List Row) : DF where
  colNames := (records.headD []).map Prod.fst
  index := (List.range records.length).map toString
  rows := records.map (List.map Prod.snd)

/-- On-disk CSV representation of a dataframe written by `df.to_csv`:
a header line and the data lines, each line a list of cells. -/
structure Csv where
  header : List String
  lines : List (List String)
deriving DecidableEq, Repr

/-- Model of `df.to_csv(fn)`: the index is written as an unnamed first column. -/
def to_csv (d : DF) : Csv where
  header := "" :: d.colNames
  lines := (d.index.zip d.rows).map fun p => p.1 :: p.2

/-- Model of `pd.read_csv(fn, index_col=0)`: the first column becomes the index. -/
def read_csv_index0 (c : Csv) : DF where
  colNames := c.header.drop 1
  index := c.lines.map (·.headD "")
  rows := c.lines.map (·.drop 1)

/-- Split a character list at every occurrence of the separator `c`
(the splitting primitive behind `str.split` / `os.path.basename` / CSV
line and cell splitting, all of which use one-character separators). -/
def splitOnChar (c : Char) : List Char → List (List Char)
  | [] => [[]]
  | x :: xs =>
    if x = c then
      [] :: splitOnChar c xs
    else
      match splitOnChar c xs with
      | [] => [[x]]
      | y :: ys => (x :: y) :: ys

/-- Split a string at every occurrence of the one-character separator. -/
def strSplit (c : Char) (s : String) : List String :=
  (splitOnChar c s.data).map String.mk

/-- Model of `pd.read_csv` on a CSV text stream (the bulk-download path): the first
line is the header, the remaining non-empty lines are data rows, the index
is the default `0..n-1` range. -/
def parseCsv (s : String) : DF :=
  match strSplit '\n' s with
  | [] => ⟨[], [], []⟩
  | h :: rest =>
    let dataRows := (rest.filter (· ≠ "")).map (strSplit ',')
    ⟨strSplit ',' h, (List.range dataRows.length).map toString, dataRows⟩

/-! ## HTTP responses and query errors (core.py lines 12-23, 54-84) -/

/-- The JSON envelope returned by the envelope query methods, typed as the
code consumes it: `validation` and `dataset` fields that may each be
absent (`"validation" not in js`), `validation` an opaque payload and
`dataset` a list of records (`not js["dataset"]` ↔ the list is empty).
The envelope may carry further fields; the code never reads them. -/
structure Envelope where
  validation : Option String
  dataset : Option (List Row)
deriving DecidableEq, Repr

/-- The body of an HTTP response, as the code decodes it: a JSON envelope
(`r.json()`), a ZIP archive over `r.content` (a list of file entries,
name and text content, in archive listing order), or undecodable bytes. -/
inductive Content where
  | json (env : Envelope)
  | zip (entries : List (String × String))
  | raw (bytes : String)
deriving DecidableEq, Repr

/-- An HTTP response from the `requests` session: status code, resolved
URL (`r.url`) and decoded body. -/
structure Response where
  status : Nat
  url : String
  content : Content
deriving DecidableEq, Repr

/-- The validation metadata carried by a `ComtradeResult`: either the
envelope's opaque `validation` payload, or the literal empty dict `{}`
passed by `get_bulk`. -/
inductive Validation where
  | payload (v : String)
  | emptyDict
deriving DecidableEq, Repr

/-- Embedding of `ComtradeResult` (core.py lines 18-22): validation metadata, the
dataframe `pd.DataFrame(dataset)`, and the resolved request URL. -/
structure ComtradeResult where
  validation : Validation
  df : DF
  url : String
deriving DecidableEq, Repr

/-- Exceptions raised by the query methods.  `queryError` models
`QueryError(msg, response)` (core.py lines 12-15): it carries the raw HTTP
response.  `valueError` models `ValueError`; `indexError` the
`zf.namelist()[0]` subscript on an empty archive; `decodeError` a body
that does not decode as the method expects (JSON / ZIP). -/
inductive CErr where
  | valueError (msg : String)
  | queryError (msg : String) (response : Response)
  | indexError
  | decodeError
deriving DecidableEq, Repr

/-- The network oracle standing for `self.sess.get(url, params=params)`:
a function from full URL and query parameters to the response. -/
abbrev Net := String → List (String × String) → Response

/-- The status check in `Comtrade._make_request` (core.py lines 54-62):
a non-200 status raises `QueryError` carrying the response. -/
def make_request_check (r : Response) : Except CErr Response :=
  if r.status ≠ 200 then
    .error (.queryError
      s!"Query failed with status code {r.status}. Response from server was"
      r)
  else
    .ok r

/-- Embedding of `Comtrade._validate_kwargs` (core.py lines 64-68): the first supplied
keyword not in the allow-list raises
`ValueError(f"Argument {k} not allowed for method {method}")`. -/
def validate_kwargs (method : String) (allowed : List String)
    (ks : List String) : Except String Unit :=
  match ks.find? (fun k => !(allowed.contains k)) with
  | some k => .error s!"Argument {k} not allowed for method {method}"
  | none => .ok ()

/-- Embedding of `Comtrade._validation_dataset_response` (core.py lines 70-84) on a
response whose body parsed as a JSON envelope. -/
def validation_dataset_response (env : Envelope) (r : Response) :
    Except CErr ComtradeResult :=
  match env.validation with
  | none =>
    .error (.queryError
      "Query indicates success, but doesn't contain validation" r)
  | some v =>
    match env.dataset with
    | none =>
      .error (.queryError
        "Query indicates success, but doesn't contain dataset" r)
    | some ds =>
      if ds.isEmpty then
        .error (.queryError
          "Query indicates success, but the dataset is empty" r)
      else
        .ok ⟨.payload v, mkDF ds, r.url⟩

/-- The shared tail of the envelope query methods:
`r = self._make_request(...)` followed by
`self._validation_dataset_response(r)`.  `r.json()` on a body that is not
JSON raises a decode error. -/
def envelope_query (r : Response) : Except CErr ComtradeResult :=
  match make_request_check r with
  | .error e => .error e
  | .ok r2 =>
    match r2.content with
    | .json env => validation_dataset_response env r2
    | _ => .error .decodeError

/-! ## Query methods (core.py lines 156-447)

Each pipeline takes the client's base URL, the caller's keyword arguments
(an ordered name/value list, matching Python's insertion-ordered kwargs
dict) and the network oracle, and returns the outcome paired with the
number of network calls performed. -/

/-- Allow-list of `Comtrade.get` (core.py lines 264-265). -/
def getAllowed : List String :=
  ["r", "px", "ps", "p", "rg", "cc", "max", "type",
   "freq", "head", "token", "imts"]

/-- Allow-list of `Comtrade.view` and `Comtrade.get_bulk`
(core.py lines 321, 378). -/
def viewAllowed : List String := ["r", "px", "ps", "type", "freq", "token"]

/-- Allow-list of `Comtrade.view_bulk` (core.py line 443). -/
def viewBulkAllowed : List String :=
  ["r", "px", "ps", "type", "freq", "from", "token"]

/-- Embedding of `Comtrade.get` (core.py lines 156-269). -/
def get_q (clientUrl : String) (kwargs : List (String × String))
    (net : Net) : Except CErr ComtradeResult × Nat :=
  match validate_kwargs "get" getAllowed (kwargs.map Prod.fst) with
  | .error m => (.error (.valueError m), 0)
  | .ok _ => (envelope_query (net (clientUrl ++ "get") kwargs), 1)

/-- Embedding of `Comtrade.view` (core.py lines 271-325). -/
def view_q (clientUrl : String) (kwargs : List (String × String))
    (net : Net) : Except CErr ComtradeResult × Nat :=
  match validate_kwargs "view" viewAllowed (kwargs.map Prod.fst) with
  | .error m => (.error (.valueError m), 0)
  | .ok _ => (envelope_query (net (clientUrl ++ "refs/da/view") kwargs), 1)

/-- Embedding of `Comtrade.view_bulk` (core.py lines 389-447).  Faithful to the
source: line 445 passes the method name `"view"`, not `"view_bulk"`, to
`_validate_kwargs`. -/
def view_bulk_q (clientUrl : String) (kwargs : List (String × String))
    (net : Net) : Except CErr ComtradeResult × Nat :=
  match validate_kwargs "view" viewBulkAllowed (kwargs.map Prod.fst) with
  | .error m => (.error (.valueError m), 0)
  | .ok _ => (envelope_query (net (clientUrl ++ "refs/da/bulk") kwargs), 1)

/-- The token resolution line of `Comtrade.get_bulk` (core.py line 379):
`token = token if token is not None else self.token`. -/
def bulkToken (token clientToken : Option String) : Option String :=
  match token with
  | some t => some t
  | none => clientToken

/-- Embedding of `Comtrade.get_bulk` (core.py lines 327-387).  The five positional
values are interpolated into the path; the token (the argument if given,
else the client's stored token) is sent as the only query parameter.  The
body is opened as a ZIP archive, its first entry parsed as CSV, and the
result carries the empty dict `{}` as validation. -/
def get_bulk (clientUrl : String) (typ freq ps rr px : String)
    (token clientToken : Option String) (net : Net) :
    Except CErr ComtradeResult × Nat :=
  let tok := bulkToken token clientToken
  let kwargNames := ["type", "freq", "ps", "r", "px", "token"]
  match validate_kwargs "get_bulk" viewAllowed kwargNames with
  | .error m => (.error (.valueError m), 0)
  | .ok _ =>
    let path := s!"get/bulk/{typ}/{freq}/{ps}/{rr}/{px}"
    let r := net (clientUrl ++ path) [("token", showOptToken tok)]
    match make_request_check r with
    | .error e => (.error e, 1)
    | .ok r =>
      match r.content with
      | .zip [] => (.error .indexError, 1)
      | .zip (e :: _) => (.ok ⟨.emptyDict, parseCsv e.2, r.url⟩, 1)
      | _ => (.error .decodeError, 1)

/-! ## Reference-data cache (`util.py`)

The cache directory is an association list from file name to stored CSV
content; the network-call count is threaded alongside it. -/

/-- The cache directory and the running count of reference-table network
fetches. -/
structure CacheState where
  disk : List (String × Csv)
  netCalls : Nat
deriving DecidableEq, Repr

/-- Association-list lookup (`os.path.isfile` + reading the file). -/
def lookupDisk (disk : List (String × Csv)) (fn : String) : Option Csv :=
  match disk.find? (fun p => p.1 == fn) with
  | some p => some p.2
  | none => none

/-- Association-list update (writing `fn`, overwriting any existing
file of the same name). -/
def writeDisk (disk : List (String × Csv)) (fn : String) (c : Csv) :
    List (String × Csv) :=
  if (disk.find? (fun p => p.1 == fn)).isSome then
    disk.map (fun p => if p.1 == fn then (fn, c) else p)
  else
    disk ++ [(fn, c)]

/-- The JSON envelope of a reference-table fetch: `ok` (the HTTP-level
`r.ok`), the pagination flag `more` and the `results` records. -/
structure RefResp where
  ok : Bool
  more : Bool
  results : List Row
deriving DecidableEq, Repr

/-- The network oracle for reference-table fetches
(`requests.get(url)` + `r.json()`). -/
abbrev RefNet := String → RefResp

/-- The fixed remote URL for a reference table
(`f"https://comtrade.un.org/data/cache/{root_name}.json"`). -/
def urlFor (root : String) : String :=
  "https://comtrade.un.org/data/cache/" ++ root ++ ".json"

/-- Model of `os.path.basename(url)`. -/
def basename (u : String) : String := (strSplit '/' u).getLastD u

/-- Model of `os.path.basename(url).split(".")[0]` (util.py line 19). -/
def rootOf (u : String) : String := (strSplit '.' (basename u)).headD ""

/-- Embedding of `update_metadata_file` (util.py lines 11-22): one network fetch,
`assert r.ok`, `assert not js["more"]`, then build the dataframe from
`results`, write it to `<root>.csv` in the cache directory and return
it.  An assertion failure is an error; nothing is written in that case. -/
def update_metadata_file (remote : RefNet) (url : String)
    (s : CacheState) : Except String DF × CacheState :=
  let r := remote url
  let s := { s with netCalls := s.netCalls + 1 }
  if !r.ok then
    (.error "AssertionError: r.ok", s)
  else if r.more then
    (.error "AssertionError: not js[\x22more\x22]", s)
  else
    let df := mkDF r.results
    let fn := rootOf url
    (.ok df, { s with disk := writeDisk s.disk (fn ++ ".csv") (to_csv df) })

/-- The 16 reference-table names fetched by `update_metadata_files`
(util.py lines 26-41) — also the fixed set of cache entries. -/
def refNames : List String :=
  ["reporterAreas", "partnerAreas", "tradeRegimes",
   "classificationHS", "classificationH0", "classificationH1",
   "classificationH2", "classificationH3", "classificationH4",
   "classificationST", "classificationS1", "classificationS2",
   "classificationS3", "classificationS4", "classificationBEC",
   "classificationEB02"]

/-- Embedding of `_get_metadata_file` (util.py lines 47-53): return the local file if
it exists (read with the first column as index, zero network calls), else
fetch and persist it via `update_metadata_file`. -/
def get_metadata_file (remote : RefNet) (root : String) (s : CacheState) :
    Except String DF × CacheState :=
  match lookupDisk s.disk (root ++ ".csv") with
  | some c => (.ok (read_csv_index0 c), s)
  | none => update_metadata_file remote (urlFor root) s

/-- The fixed 13-code classification set (util.py lines 69-70). -/
def allowedClassifications : List String :=
  ["HS", "H0", "H1", "H2", "H3", "H4", "ST", "S1", "S2", "S3",
   "S4", "BEC", "EB02"]

/-- Embedding of `get_classification` (util.py lines 68-76): an unknown code raises
`ValueError(n)` before any I/O; a known code resolves to the
`classification<n>` cache entry.  Faithful to the source: line 74 raises
`ValueError(n)` — the exception payload is the code itself, not the
composed message. -/
def get_classification (remote : RefNet) (n : String) (s : CacheState) :
    Except String DF × CacheState :=
  if n ∈ allowedClassifications then
    get_metadata_file remote ("classification" ++ n) s
  else
    (.error n, s)

/-! ## Helper lemmas -/

/-- The dataframe built by `pd.DataFrame(records)` has as many index
entries as rows. -/
theorem mkDF_length_eq (records : List Row) :
    (mkDF records).index.length = (mkDF records).rows.length := by
  simp [mkDF]

/-- The model `pd.read_csv(fn, index_col=0)` inverts `df.to_csv(fn)` on any
dataframe whose index and rows have the same length. -/
theorem read_csv_to_csv (d : DF) (h : d.index.length = d.rows.length) :
    read_csv_index0 (to_csv d) = d := by
  obtain ⟨cols, idx, rows⟩ := d
  simp only [to_csv, read_csv_index0, List.map_map, DF.mk.injEq]
  refine ⟨rfl, ?_, ?_⟩
  · show (idx.zip rows).map Prod.fst = idx
    exact List.map_fst_zip idx rows (le_of_eq h)
  · show (idx.zip rows).map Prod.snd = rows
    exact List.map_snd_zip idx rows (ge_of_eq h)

/-- A file name absent from the cache directory reads back its freshly
written content after `writeDisk`. -/
theorem lookupDisk_writeDisk_self (disk : List (String × Csv))
    (fn : String) (c : Csv) (h : lookupDisk disk fn = none) :
    lookupDisk (writeDisk disk fn c) fn = some c := by
  have hfind : disk.find? (fun p => p.1 == fn) = none := by
    unfold lookupDisk at h
    cases hf : disk.find? (fun p => p.1 == fn) with
    | none => rfl
    | some p => rw [hf] at h; exact absurd h (by simp)
  unfold writeDisk lookupDisk
  simp [hfind]

/-- For every name in the fixed reference-table set, extracting the root
name back out of its remote URL recovers the name. -/
theorem rootOf_urlFor (root : String) (h : root ∈ refNames) :
    rootOf (urlFor root) = root := by
  fin_cases h <;> decide

end Comtrade

namespace Comtrade

/-! ## Claims about client construction -/

/-- C1: the claim says a resolved token longer than 152 characters is
truncated to its first 152 characters with a non-fatal warning, for every
source.  The code does neither: a token resolved from the environment
variable makes line 44 evaluate `token[:152]` where `token` is the
constructor argument `None`, raising `TypeError`; and a constructor-
supplied long token is never assigned to `self.token` at all, so
construction succeeds with `self.token = None`, no truncation and no
warning. -/
theorem C1_long_token_truncation_fails :
    comtradeInit DEFAULT_API_URL none (some tok153) none 3 =
      .typeError "'NoneType' object is not subscriptable" ∧
    comtradeInit DEFAULT_API_URL (some tok153) none none 3 =
      .ok ⟨DEFAULT_API_URL, none, some ⟨DEFAULT_API_URL, 3⟩⟩ [] := by
  constructor <;> rfl

/-- C2: when no token can be resolved from any source, construction warns
("usage may be limited") and completes — but the early `return` on line 39
skips `self.sess = requests.Session()`, so no transport session is
created, contradicting the claim that the session is initialized so
subsequent query calls can proceed. -/
theorem C2_no_token_warns_but_no_session :
    comtradeInit DEFAULT_API_URL none none none 3 =
      .ok ⟨DEFAULT_API_URL, none, none⟩
        ["Comtrade token not detected, usage may be limited."] := rfl

/-- C5: the claim says every resolved token shorter than 152 characters
makes construction fail with no session created.  The code does raise
`ValueError` for a short token resolved from the environment variable, but
a short token supplied as the constructor argument is never assigned to
`self.token`, so construction succeeds and the session is created. -/
theorem C5_short_ctor_token_accepted :
    comtradeInit DEFAULT_API_URL (some "abc") none none 3 =
      .ok ⟨DEFAULT_API_URL, none, some ⟨DEFAULT_API_URL, 3⟩⟩ [] ∧
    comtradeInit DEFAULT_API_URL none (some "abc") none 3 =
      .valueError "API token None too short. Should be 152 chars" := by
  constructor <;> rfl

/-- C10: the claim says a 152-character token from any source is stored
byte-for-byte.  A 152-character token resolved from the environment
variable is stored intact with the session initialized and no warning, but
a 152-character constructor argument is never assigned to `self.token`,
which stays `None`. -/
theorem C10_exact_ctor_token_not_stored :
    comtradeInit DEFAULT_API_URL (some tok152) none none 3 =
      .ok ⟨DEFAULT_API_URL, none, some ⟨DEFAULT_API_URL, 3⟩⟩ [] ∧
    comtradeInit DEFAULT_API_URL none (some tok152) none 3 =
      .ok ⟨DEFAULT_API_URL, some tok152, some ⟨DEFAULT_API_URL, 3⟩⟩ [] := by
  constructor <;> rfl

/-! ## Claims about the query methods -/

/-- C3: for a parameter name outside the allow-list, each query method
fails with zero network calls, and the error names the offending
parameter — but `view_bulk` reports the method name `"view"` (the literal
passed on core.py line 445), not `view_bulk`, so the error does not
identify the method being invoked. -/
theorem C3_disallowed_kwarg_rejected_before_network :
    ∀ net : Net,
      get_q DEFAULT_API_URL [("bogus", "1")] net =
        (.error (.valueError "Argument bogus not allowed for method get"),
         0) ∧
      view_q DEFAULT_API_URL [("bogus", "1")] net =
        (.error (.valueError "Argument bogus not allowed for method view"),
         0) ∧
      view_bulk_q DEFAULT_API_URL [("bogus", "1")] net =
        (.error (.valueError "Argument bogus not allowed for method view"),
         0) := by
  intro net
  exact ⟨rfl, rfl, rfl⟩

/-- C4: an envelope query raises an error if and only if the HTTP status
is not 200, or the envelope lacks `validation`, or lacks `dataset`, or its
`dataset` is empty; and every such error is a `QueryError` carrying the
raw HTTP response. -/
theorem C4_envelope_error_characterization (st : Nat) (u : String)
    (env : Envelope) :
    ((∃ e, envelope_query ⟨st, u, .json env⟩ = .error e) ↔
      (st ≠ 200 ∨ env.validation = none ∨ env.dataset = none ∨
        env.dataset = some [])) ∧
    (∀ e, envelope_query ⟨st, u, .json env⟩ = .error e →
      ∃ m, e = .queryError m ⟨st, u, .json env⟩) := by
  obtain ⟨vo, dso⟩ := env
  by_cases hst : st = 200
  · subst hst
    cases vo with
    | none =>
      simp [envelope_query, make_request_check, validation_dataset_response]
    | some v =>
      cases dso with
      | none =>
        simp [envelope_query, make_request_check,
          validation_dataset_response]
      | some ds =>
        cases ds with
        | nil =>
          simp [envelope_query, make_request_check,
            validation_dataset_response]
        | cons a l =>
          simp [envelope_query, make_request_check,
            validation_dataset_response]
  · simp [envelope_query, make_request_check, hst]

/-- Witness for C4 at a concrete 404 response with an empty envelope. -/
theorem C4_envelope_error_characterization_witness :
    ((∃ e, envelope_query ⟨404, "u", .json ⟨none, none⟩⟩ = .error e) ↔
      ((404 : Nat) ≠ 200 ∨ (Envelope.mk none none).validation = none ∨
        (Envelope.mk none none).dataset = none ∨
        (Envelope.mk none none).dataset = some [])) ∧
    (∀ e, envelope_query ⟨404, "u", .json ⟨none, none⟩⟩ = .error e →
      ∃ m, e = .queryError m ⟨404, "u", .json ⟨none, none⟩⟩) :=
  C4_envelope_error_characterization 404 "u" ⟨none, none⟩

/-- C9: a bulk download whose 200 response body is a ZIP archive returns
a result whose table is the CSV parse of the archive's first entry and
whose validation metadata is the empty dict, in one network call. -/
theorem C9_bulk_zip_first_entry (clientUrl typ freq ps rr px : String)
    (token clientToken : Option String) (net : Net) (r : Response)
    (e : String × String) (es : List (String × String))
    (hr : net (clientUrl ++ s!"get/bulk/{typ}/{freq}/{ps}/{rr}/{px}")
        [("token", showOptToken (bulkToken token clientToken))] = r)
    (hst : r.status = 200) (hz : r.content = .zip (e :: es)) :
    get_bulk clientUrl typ freq ps rr px token clientToken net =
      (.ok ⟨.emptyDict, parseCsv e.2, r.url⟩, 1) := by
  obtain ⟨rst, rurl, rcont⟩ := r
  replace hst : rst = 200 := hst
  replace hz : rcont = .zip (e :: es) := hz
  subst hst
  subst hz
  simp only [get_bulk, hr]
  rfl

/-- Witness for C9: a ZIP archive holding one CSV entry with columns
`a, b` and two data rows yields exactly that two-row table and an empty
validation field. -/
theorem C9_bulk_zip_first_entry_witness :
    get_bulk DEFAULT_API_URL "C" "A" "2019" "36" "HS" none (some tok152)
        (fun _ _ =>
          ⟨200, "http://example/bulk", .zip [("f.csv", "a,b\n1,2\n3,4")]⟩) =
      (.ok ⟨.emptyDict, parseCsv "a,b\n1,2\n3,4", "http://example/bulk"⟩,
       1) ∧
    parseCsv "a,b\n1,2\n3,4" =
      ⟨["a", "b"], ["0", "1"], [["1", "2"], ["3", "4"]]⟩ :=
  ⟨C9_bulk_zip_first_entry DEFAULT_API_URL "C" "A" "2019" "36" "HS"
      none (some tok152) _ _ ("f.csv", "a,b\n1,2\n3,4") [] rfl rfl rfl,
    by decide⟩

/-! ## Claims about the reference-data cache -/

/-- C6: for a name in the fixed reference-table set with no local cache
file, a fetch performs exactly one network call, persists exactly one
local file and returns the table built from the fetched `results`; a
second fetch for the same name leaves the state unchanged (zero network
calls) and returns an equal table read back from the on-disk file with
its first column as the row index. -/
theorem C6_cache_miss_then_hit (root : String) (remote : RefNet)
    (s : CacheState) (hmem : root ∈ refNames)
    (hmiss : lookupDisk s.disk (root ++ ".csv") = none)
    (hok : (remote (urlFor root)).ok = true)
    (hmore : (remote (urlFor root)).more = false) :
    get_metadata_file remote root s =
      (.ok (mkDF (remote (urlFor root)).results),
        ⟨writeDisk s.disk (root ++ ".csv")
          (to_csv (mkDF (remote (urlFor root)).results)),
         s.netCalls + 1⟩) ∧
    get_metadata_file remote root
      ⟨writeDisk s.disk (root ++ ".csv")
        (to_csv (mkDF (remote (urlFor root)).results)),
       s.netCalls + 1⟩ =
      (.ok (mkDF (remote (urlFor root)).results),
        ⟨writeDisk s.disk (root ++ ".csv")
          (to_csv (mkDF (remote (urlFor root)).results)),
         s.netCalls + 1⟩) := by
  have hroot : rootOf (urlFor root) = root := rootOf_urlFor root hmem
  constructor
  · simp [get_metadata_file, hmiss, update_metadata_file, hok, hmore,
      hroot]
  · have hl := lookupDisk_writeDisk_self s.disk (root ++ ".csv")
      (to_csv (mkDF (remote (urlFor root)).results)) hmiss
    simp [get_metadata_file, hl,
      read_csv_to_csv _ (mkDF_length_eq (remote (urlFor root)).results)]

/-- Witness for C6: fetching `reporterAreas` into an empty cache and
fetching it again. -/
theorem C6_cache_miss_then_hit_witness :
    get_metadata_file
        (fun _ => ⟨true, false, [[("id", "all"), ("text", "All")]]⟩)
        "reporterAreas" ⟨[], 0⟩ =
      (.ok ⟨["id", "text"], ["0"], [["all", "All"]]⟩,
        ⟨[("reporterAreas.csv",
            ⟨["", "id", "text"], [["0", "all", "All"]]⟩)], 1⟩) ∧
    get_metadata_file
        (fun _ => ⟨true, false, [[("id", "all"), ("text", "All")]]⟩)
        "reporterAreas"
        ⟨[("reporterAreas.csv",
            ⟨["", "id", "text"], [["0", "all", "All"]]⟩)], 1⟩ =
      (.ok ⟨["id", "text"], ["0"], [["all", "All"]]⟩,
        ⟨[("reporterAreas.csv",
            ⟨["", "id", "text"], [["0", "all", "All"]]⟩)], 1⟩) :=
  C6_cache_miss_then_hit "reporterAreas"
    (fun _ => ⟨true, false, [[("id", "all"), ("text", "All")]]⟩)
    ⟨[], 0⟩ (by decide) rfl rfl rfl

/-- C7: a reference-table fetch whose response sets the `more` flag fails
with an assertion-style error, and nothing is written to the cache
directory — no truncated table is persisted or returned. -/
theorem C7_more_flag_aborts (remote : RefNet) (url : String)
    (s : CacheState) (hmore : (remote url).more = true) :
    (∃ m, (update_metadata_file remote url s).1 = .error m) ∧
    (update_metadata_file remote url s).2.disk = s.disk := by
  unfold update_metadata_file
  cases hok : (remote url).ok <;> simp [hok, hmore]

/-- Witness for C7 at a concrete paginated response. -/
theorem C7_more_flag_aborts_witness :
    (∃ m, (update_metadata_file (fun _ => ⟨true, true, []⟩)
      (urlFor "reporterAreas") ⟨[], 0⟩).1 = .error m) ∧
    (update_metadata_file (fun _ => ⟨true, true, []⟩)
      (urlFor "reporterAreas") ⟨[], 0⟩).2.disk = [] :=
  C7_more_flag_aborts (fun _ => ⟨true, true, []⟩)
    (urlFor "reporterAreas") ⟨[], 0⟩ rfl

/-- C8: a classification code outside the fixed 13-code set fails with
the cache state untouched (no I/O); a code inside the set resolves to the
`classification<code>` cache entry. -/
theorem C8_classification_allowlist (remote : RefNet) (n : String)
    (s : CacheState) :
    (n ∉ allowedClassifications →
      get_classification remote n s = (.error n, s)) ∧
    (n ∈ allowedClassifications →
      get_classification remote n s =
        get_metadata_file remote ("classification" ++ n) s) := by
  constructor <;> intro h <;> simp [get_classification, h]

/-- Witness for C8: code `"ZZ"` fails with the state untouched; code
`"HS"` resolves to the `classificationHS` cache entry. -/
theorem C8_classification_allowlist_witness :
    (get_classification (fun _ => ⟨true, false, []⟩) "ZZ" ⟨[], 0⟩ =
      (.error "ZZ", ⟨[], 0⟩)) ∧
    (get_classification (fun _ => ⟨true, false, []⟩) "HS" ⟨[], 0⟩ =
      get_metadata_file (fun _ => ⟨true, false, []⟩)
        "classificationHS" ⟨[], 0⟩) :=
  ⟨(C8_classification_allowlist (fun _ => ⟨true, false, []⟩)
      "ZZ" ⟨[], 0⟩).1 (by decide),
   (C8_classification_allowlist (fun _ => ⟨true, false, []⟩)
      "HS" ⟨[], 0⟩).2 (by decide)⟩

end Comtrade
